import Mathlib

/-!
Shallow embedding of `art/estimators/embedding/keras.py`
(class `KerasAdversarialEmbedding`): the poison-mask computation, the
poisoned `fit` loop, the stored training-data triple, the prediction
path with the verbose backdoor diagnostic, the loss-dictionary
construction at compile time, and the gradient accessors.

Numpy arrays are lists of rationals; a label tensor is either 1-D
(index form) or 2-D (one-hot form).  External collaborators (the
backdoor transform, the framework training/prediction calls, the
pre/post-processing chains) are function parameters.  Python
exceptions are an error type threaded through `Except`.
-/

namespace AdvEmbed

/-- The Python exception kinds that the embedded code can raise. -/
inductive PyErr where
  | axisError
  | indexError
  | typeError
  | attributeError
  | broadcastError
  | frameworkError
  deriving DecidableEq, Repr

/-- A numpy array of labels: 1-D index form or 2-D one-hot form. -/
inductive NPArr where
  | one (v : List ℚ)
  | two (m : List (List ℚ))
  deriving DecidableEq

/-- The rows of a 2-D label array (a 1-D array has none). -/
def NPArr.rows : NPArr → List (List ℚ)
  | NPArr.one _ => []
  | NPArr.two m => m

/-- Embeds `np.all(m == target, axis=1)` for a 2-D `m`: each row is
compared elementwise against the broadcast `target` and reduced with
`all` along axis 1.  Rows whose length differs from `target`'s cannot
be broadcast elementwise and the comparison fails.  (Broadcasting a
length-1 `target` is not exercised by this module: `target` is a
one-hot label vector.) -/
def rowsEqTarget (m : List (List ℚ)) (target : List ℚ) : Except PyErr (List Bool) :=
  if m.all (fun r => r.length == target.length) then
    Except.ok (m.map (fun r => decide (r = target)))
  else
    Except.error PyErr.broadcastError

/-- Embeds line 198, `not_target = np.logical_not(np.all(y == self.target, axis=1))`.
For a 1-D `y` the comparison result has at most one axis, so reducing
along `axis=1` raises (numpy `AxisError`). -/
def notTargetMask (y : NPArr) (target : List ℚ) : Except PyErr (List Bool) :=
  match y with
  | NPArr.one _ => Except.error PyErr.axisError
  | NPArr.two m =>
    match rowsEqTarget m target with
    | Except.error e => Except.error e
    | Except.ok eqs => Except.ok (eqs.map (fun b => !b))

/-- Embeds lines 197 and 199: `selected_indices = np.zeros(len(x)).astype(bool)`
followed by `selected_indices[not_target] = np.random.uniform(size=sum(not_target)) < self.pp_poison`.
`draws` is the stream of uniform draws; the j-th eligible (not-target)
position consumes the j-th draw, all other positions stay `false`. -/
def selectMask : List Bool → (ℕ → ℚ) → ℚ → List Bool
  | [], _, _ => []
  | b :: rest, draws, pp =>
    if b then
      decide (draws 0 < pp) :: selectMask rest (fun k => draws (k + 1)) pp
    else
      false :: selectMask rest draws pp

/-- Numpy boolean-mask row selection, `arr[mask]` for a mask of matching length. -/
def maskSelect {α : Type} : List α → List Bool → List α
  | [], _ => []
  | _, [] => []
  | v :: vs, b :: bs => if b then v :: maskSelect vs bs else maskSelect vs bs

/-- Embeds line 208, `poison_idxs = np.arange(len(x))[selected_indices]`. -/
def trueIdxs (mask : List Bool) : List ℕ :=
  (List.range mask.length).filter (fun i => mask.getD i false)

/-- `np.eye(2)[b]`: row `[1,0]` for a clean sample, `[0,1]` for a poisoned one. -/
def eye2row (b : Bool) : List ℚ := if b then [0, 1] else [1, 0]

/-- Embeds lines 213-214: the two-column one-hot backdoor indicator,
`np.eye(2)[np.isin(np.arange(len(x)), poison_idxs).astype(int)]`. -/
def isBackdoorRows (n : ℕ) (poison_idxs : List ℕ) : List (List ℚ) :=
  (List.range n).map (fun i => eye2row (poison_idxs.contains i))

/-- Embeds the overwrite loop of lines 209-211 for one of the two
arrays: `for i, idx in enumerate(poison_idxs): arr[idx] = rows[i]`.
Running out of poisoned rows while indices remain raises `IndexError`. -/
def overwriteRows (arr : List (List ℚ)) : List ℕ → List (List ℚ) → Except PyErr (List (List ℚ))
  | [], _ => Except.ok arr
  | _ :: _, [] => Except.error PyErr.indexError
  | idx :: idxs, p :: ps => overwriteRows (arr.set idx p) idxs ps

/-- The triple stored on the estimator by `fit` (line 217):
`self.train_data, self.train_labels, self.is_backdoor`. -/
structure FitData where
  train_data : List (List ℚ)
  train_labels : List (List ℚ)
  is_backdoor : List (List ℚ)
  deriving DecidableEq

/-- Embeds the data-poisoning part of `fit` (lines 197-214): computes
the poison mask, copies `x` and `y`, poisons the selected rows through
the backdoor transform `poisonFn` (an external collaborator returning
poisoned data and labels for the selected subset with the target label
broadcast), and builds the backdoor indicator.  The boolean mask of
line 199 must have exactly `len(x)` entries or numpy raises
`IndexError`. -/
def fitCore (x : List (List ℚ)) (y : NPArr) (target : List ℚ) (pp_poison : ℚ)
    (draws : ℕ → ℚ)
    (poisonFn : List (List ℚ) → List (List ℚ) × List (List ℚ)) :
    Except PyErr FitData :=
  match notTargetMask y target with
  | Except.error e => Except.error e
  | Except.ok nt =>
    if nt.length = x.length then
      let selected_indices := selectMask nt draws pp_poison
      let to_be_poisoned := maskSelect x selected_indices
      let poisoned := poisonFn to_be_poisoned
      let poison_idxs := trueIdxs selected_indices
      match overwriteRows x poison_idxs poisoned.1,
            overwriteRows y.rows poison_idxs poisoned.2 with
      | Except.ok td, Except.ok tl =>
        Except.ok ⟨td, tl, isBackdoorRows x.length poison_idxs⟩
      | Except.error e, _ => Except.error e
      | Except.ok _, Except.error e => Except.error e
    else
      Except.error PyErr.indexError

/-- The mutable estimator state touched by `fit`: the stored
training-data triple (absent before the first `fit`). -/
structure EstState where
  stored : Option FitData
  deriving DecidableEq

/-- The estimator state right after `__init__`: `self.train_data` and
friends are not yet assigned. -/
def initialState : EstState := ⟨none⟩

/-- Embeds lines 216-220 of `fit`: the triple is assigned to the
instance (line 217) and then `self.embed_model.fit(...)` is invoked
(line 220); `trainOk` is the outcome of that external framework call.
The state update happens before the training call, so it survives a
training failure. -/
def fitStep (st : EstState) (x : List (List ℚ)) (y : NPArr) (target : List ℚ)
    (pp_poison : ℚ) (draws : ℕ → ℚ)
    (poisonFn : List (List ℚ) → List (List ℚ) × List (List ℚ))
    (trainOk : Bool) : EstState × Except PyErr Unit :=
  match fitCore x y target pp_poison draws poisonFn with
  | Except.error e => (st, Except.error e)
  | Except.ok fd =>
    (⟨some fd⟩, if trainOk then Except.ok () else Except.error PyErr.frameworkError)

/-- Embeds `get_training_data` (lines 248-253): returns the stored
triple; touching the attributes before any `fit` raises
`AttributeError`. -/
def get_training_data (st : EstState) : Except PyErr FitData :=
  match st.stored with
  | none => Except.error PyErr.attributeError
  | some fd => Except.ok fd

/-! ### A heap of numpy arrays, for the no-mutation (frame) property

`fit` receives *references* to the caller's arrays and copies them
(lines 201-202) before overwriting rows.  To state that the caller's
arrays are not mutated we model a store of 2-D arrays addressed by
index; `np.copy` allocates a fresh cell and the overwrite loop writes
rows through the store. -/

/-- A store of numpy 2-D arrays; an array reference is an index into it. -/
structure Store where
  arrays : List (List (List ℚ))
  deriving DecidableEq

/-- Dereference an array. -/
def Store.read (s : Store) (i : ℕ) : List (List ℚ) := s.arrays.getD i []

/-- `np.copy`: allocate a fresh array cell holding `a`, return its reference. -/
def Store.alloc (s : Store) (a : List (List ℚ)) : Store × ℕ :=
  (⟨s.arrays ++ [a]⟩, s.arrays.length)

/-- `arr[r] = row` through reference `i`. -/
def Store.writeRow (s : Store) (i r : ℕ) (row : List ℚ) : Store :=
  ⟨s.arrays.set i ((s.arrays.getD i []).set r row)⟩

/-- The overwrite loop of lines 209-211 acting through the store on
the array referenced by `aid`. -/
def overwriteRowsStore (aid : ℕ) : Store → List ℕ → List (List ℚ) → Except PyErr Store
  | s, [], _ => Except.ok s
  | _, _ :: _, [] => Except.error PyErr.indexError
  | s, idx :: idxs, p :: ps => overwriteRowsStore aid (s.writeRow aid idx p) idxs ps

/-- `fit`'s array handling (lines 197-214) at the store level: the
caller's `x` and `y` are passed by reference (`xid`, `yid`); the
copies of lines 201-202 allocate fresh cells, and the overwrite loop
of lines 209-211 (split here into its data pass and its label pass
over the same indices) writes only through the fresh references.
Returns the references of the poisoned data and label arrays. -/
def fitStore (s : Store) (xid yid : ℕ) (target : List ℚ) (pp_poison : ℚ)
    (draws : ℕ → ℚ)
    (poisonFn : List (List ℚ) → List (List ℚ) × List (List ℚ)) :
    Except PyErr (Store × ℕ × ℕ) :=
  let x := s.read xid
  let yrows := s.read yid
  match notTargetMask (NPArr.two yrows) target with
  | Except.error e => Except.error e
  | Except.ok nt =>
    if nt.length = x.length then
      let selected_indices := selectMask nt draws pp_poison
      let alloc1 := s.alloc x
      let alloc2 := alloc1.1.alloc yrows
      let to_be_poisoned := maskSelect x selected_indices
      let poisoned := poisonFn to_be_poisoned
      let poison_idxs := trueIdxs selected_indices
      match overwriteRowsStore alloc1.2 alloc2.1 poison_idxs poisoned.1 with
      | Except.error e => Except.error e
      | Except.ok s3 =>
        match overwriteRowsStore alloc2.2 s3 poison_idxs poisoned.2 with
        | Except.error e => Except.error e
        | Except.ok s4 => Except.ok (s4, alloc1.2, alloc2.2)
    else
      Except.error PyErr.indexError

/-! ### Prediction (lines 222-246) -/

/-- A numpy boolean array: 1-D or 2-D. -/
inductive NPBool where
  | one (v : List Bool)
  | two (m : List (List Bool))
  deriving DecidableEq

/-- Elementwise `m > t` on a 2-D array. -/
def npGt2 (m : List (List ℚ)) (t : ℚ) : List (List Bool) :=
  m.map (fun row => row.map (fun v => decide (t < v)))

/-- `np.any` over a 2-D boolean array. -/
def npAny2 (m : List (List Bool)) : Bool :=
  m.any (fun row => row.any (fun b => b))

/-- Numpy fancy indexing of a 1-D array by a boolean mask: a 1-D mask
must have the same length; a 2-D mask has more dimensions than the
indexed array and raises `IndexError`. -/
def npBoolIndex1 (a : List ℕ) (mask : NPBool) : Except PyErr (List ℕ) :=
  match mask with
  | NPBool.one v =>
    if v.length = a.length then Except.ok (maskSelect a v)
    else Except.error PyErr.indexError
  | NPBool.two _ => Except.error PyErr.indexError

/-- Embeds `predict` (lines 222-246).  `preprocess`, `postprocess` and
the combined model's `embedPredict` (returning the task and the
discriminator output arrays, the latter of shape `(n, 2)`) are
external collaborators.  In verbose mode the diagnostic compares the
discriminator output against `detect_threshold` and, when any entry is
above it, logs the suspected indices via
`np.arange(len(backdoor_predictions))[suspected_backdoors]`
(line 242), whose evaluation indexes a 1-D array with a 2-D mask. -/
def predictEmbed (preprocess postprocess : List (List ℚ) → List (List ℚ))
    (embedPredict : List (List ℚ) → List (List ℚ) × List (List ℚ))
    (verbose : Bool) (detect_threshold : ℚ) (x : List (List ℚ)) :
    Except PyErr (List (List ℚ)) :=
  let x_preprocessed := preprocess x
  let outputs := embedPredict x_preprocessed
  let task_predictions := outputs.1
  let backdoor_predictions := outputs.2
  if verbose then
    let suspected_backdoors := npGt2 backdoor_predictions detect_threshold
    if npAny2 suspected_backdoors then
      match npBoolIndex1 (List.range backdoor_predictions.length)
          (NPBool.two suspected_backdoors) with
      | Except.error e => Except.error e
      | Except.ok _ => Except.ok (postprocess task_predictions)
    else Except.ok (postprocess task_predictions)
  else Except.ok (postprocess task_predictions)

/-! ### Loss-dictionary construction at `__init__` (lines 159-175) -/

/-- Identifiers for Keras loss functions. -/
inductive LossFn where
  | categoricalCrossentropy
  | binaryCrossentropy
  | meanSquaredError
  | custom (ident : ℕ)
  deriving DecidableEq

/-- A key in the compiled loss / loss-weight dictionaries: either the
base model's name or the `'backdoor_detect'` output. -/
inductive LossKey where
  | modelName (name : ℕ)
  | backdoorDetect
  deriving DecidableEq

/-- The attributes of the base Keras model consulted by the loss
construction: `model.name`, `model.loss`, and `model.losses` (the
auxiliary-loss list whose emptiness selects the branch at line 161). -/
structure BaseModelCfg where
  name : ℕ
  loss : LossFn
  losses : List ℚ
  deriving DecidableEq

/-- Embeds lines 161-167: the compiled loss dictionary.  When
`model.losses` is empty, the base loss keyed by the model's name plus
binary cross-entropy on `'backdoor_detect'`.  Otherwise line 166
iterates `for i, loss in model.outputs`, unpacking output tensors as
pairs, which raises a `TypeError` (flagged `TODO: this makes no sense`
in the source). -/
def buildLosses (m : BaseModelCfg) : Except PyErr (List (LossKey × LossFn)) :=
  if m.losses = [] then
    Except.ok [(LossKey.modelName m.name, m.loss),
               (LossKey.backdoorDetect, LossFn.binaryCrossentropy)]
  else
    Except.error PyErr.typeError

/-- Embeds line 172: `loss_weights={model_name: 1.0, "backdoor_detect": -self.regularization}`. -/
def buildLossWeights (m : BaseModelCfg) (regularization : ℚ) : List (LossKey × ℚ) :=
  [(LossKey.modelName m.name, 1), (LossKey.backdoorDetect, -regularization)]

/-- The combined compiled objective: the weighted sum of the per-output
loss values under a loss-weight dictionary. -/
def weightedLossSum (ws : List (LossKey × ℚ)) (vals : LossKey → ℚ) : ℚ :=
  (ws.map (fun kv => kv.2 * vals kv.1)).sum

/-! ### Feature-layer sub-model extraction (lines 140-144) -/

/-- The base model's layer graph as seen through the framework's
layer-graph API: for each layer index, the function taking the model's
input to that layer's activations. -/
structure LayerGraph where
  layerOut : List (List ℚ → List ℚ)

/-- Embeds lines 140-144: the sub-model feeding the discriminator,
`Model(input=model_input, output=self.model.layers[5].output)` — the
layer index is the hard-coded literal `5`, the `feature_layer`
constructor argument notwithstanding. -/
def featureSubmodel (g : LayerGraph) (feature_layer : ℕ) : Option (List ℚ → List ℚ) :=
  g.layerOut.get? 5

/-- Modelled from the spec: "Extract the sub-model mapping the base
model's input to the activations at the designated feature layer" —
the layer designated by the `feature_layer` argument.  For comparison
with `featureSubmodel`. -/
def featureSubmodelSpec (g : LayerGraph) (feature_layer : ℕ) : Option (List ℚ → List ℚ) :=
  g.layerOut.get? feature_layer

/-! ### Gradient accessors (lines 255-279) -/

/-- Embeds `loss_gradient` (lines 255-264): a plain delegation,
`return KerasClassifier.loss_gradient(self, x, y, **kwargs)`. -/
def loss_gradient (baseLossGradient : List (List ℚ) → NPArr → List (List ℚ))
    (x : List (List ℚ)) (y : NPArr) : Except PyErr (List (List ℚ)) :=
  Except.ok (baseLossGradient x y)

/-- Python's `raise v` for a value `v` that is not an exception
instance: raises `TypeError: exceptions must derive from BaseException`. -/
def raiseValue {α β : Type} (v : α) : Except PyErr β :=
  Except.error PyErr.typeError

/-- Embeds `class_gradient` (lines 266-279): the delegated result is
used as the operand of `raise`,
`raise KerasClassifier.class_gradient(self, x, label, **kwargs)`. -/
def class_gradient (baseClassGradient : List (List ℚ) → Option (List ℤ) → List (List ℚ))
    (x : List (List ℚ)) (label : Option (List ℤ)) : Except PyErr (List (List ℚ)) :=
  raiseValue (baseClassGradient x label)

/-- A concrete seven-layer base model (cf. the source comment
"7 - last layer"): layer `i`'s activation is the constant `[i]`, so
distinct layers are observably distinct. -/
def exampleLayerGraph : LayerGraph :=
  ⟨[fun _ => [0], fun _ => [1], fun _ => [2], fun _ => [3],
    fun _ => [4], fun _ => [5], fun _ => [6]]⟩

/-! ## Supporting lemmas -/

theorem getD_set_ne {α : Type} (l : List α) {i j : ℕ} (a d : α) (h : i ≠ j) :
    (l.set i a).getD j d = l.getD j d := by
  rcases Nat.lt_or_ge j l.length with hj | hj
  · rw [List.getD_eq_getElem _ _ (by simpa using hj), List.getD_eq_getElem _ _ hj]
    exact List.getElem_set_ne h _
  · rw [List.getD_eq_default _ _ (by simpa using hj), List.getD_eq_default _ _ hj]

theorem getD_replicate_false (n i : ℕ) :
    (List.replicate n false).getD i false = false := by
  induction n generalizing i with
  | zero => rfl
  | succ k ih =>
    cases i with
    | zero => rfl
    | succ j => simpa [List.replicate_succ] using ih j

theorem selectMask_length (nt : List Bool) (draws : ℕ → ℚ) (pp : ℚ) :
    (selectMask nt draws pp).length = nt.length := by
  induction nt generalizing draws with
  | nil => rfl
  | cons b rest ih => cases b <;> simp [selectMask, ih]

/-- A position can only be selected for poisoning if it is a
not-target position. -/
theorem selectMask_getD_true (nt : List Bool) (draws : ℕ → ℚ) (pp : ℚ) (i : ℕ)
    (h : (selectMask nt draws pp).getD i false = true) : nt.getD i false = true := by
  induction nt generalizing draws i with
  | nil => simp [selectMask] at h
  | cons b rest ih =>
    cases b with
    | true =>
      cases i with
      | zero => rfl
      | succ n => exact ih _ _ (by simpa [selectMask] using h)
    | false =>
      cases i with
      | zero => simp [selectMask] at h
      | succ n => exact ih _ _ (by simpa [selectMask] using h)

/-- With `pp_poison ≤ 0` and nonnegative uniform draws, no position is
selected. -/
theorem selectMask_of_nonpos (nt : List Bool) (draws : ℕ → ℚ) (pp : ℚ)
    (hd : ∀ k, 0 ≤ draws k) (hpp : pp ≤ 0) :
    selectMask nt draws pp = List.replicate nt.length false := by
  induction nt generalizing draws with
  | nil => rfl
  | cons b rest ih =>
    cases b with
    | true =>
      have : ¬ draws 0 < pp := not_lt.mpr (hpp.trans (hd 0))
      simp [selectMask, List.replicate_succ, this, ih _ (fun k => hd (k + 1))]
    | false => simp [selectMask, List.replicate_succ, ih _ hd]

theorem mem_trueIdxs {mask : List Bool} {i : ℕ} :
    i ∈ trueIdxs mask ↔ i < mask.length ∧ mask.getD i false = true := by
  simp [trueIdxs, List.mem_filter, List.mem_range]

theorem trueIdxs_replicate_false (n : ℕ) :
    trueIdxs (List.replicate n false) = [] := by
  rw [trueIdxs, List.filter_eq_nil_iff]
  intro i _
  simp [getD_replicate_false]

theorem overwriteRows_getD_not_mem (idxs : List ℕ) (ps arr arr2 : List (List ℚ))
    (hok : overwriteRows arr idxs ps = Except.ok arr2)
    (i : ℕ) (h : i ∉ idxs) (d : List ℚ) :
    arr2.getD i d = arr.getD i d := by
  induction idxs generalizing arr ps with
  | nil =>
    cases ps <;> · rw [overwriteRows] at hok; cases hok; rfl
  | cons idx rest ih =>
    cases ps with
    | nil => rw [overwriteRows] at hok; cases hok
    | cons p ps2 =>
      rw [overwriteRows] at hok
      rw [ih ps2 (arr.set idx p) hok (fun hm => h (List.mem_cons_of_mem _ hm))]
      refine getD_set_ne _ _ _ ?_
      rintro rfl
      exact h (List.mem_cons_self _ _)

theorem overwriteRows_length (idxs : List ℕ) (ps arr arr2 : List (List ℚ))
    (hok : overwriteRows arr idxs ps = Except.ok arr2) :
    arr2.length = arr.length := by
  induction idxs generalizing arr ps with
  | nil =>
    cases ps <;> · rw [overwriteRows] at hok; cases hok; rfl
  | cons idx rest ih =>
    cases ps with
    | nil => rw [overwriteRows] at hok; cases hok
    | cons p ps2 =>
      rw [overwriteRows] at hok
      rw [ih ps2 (arr.set idx p) hok, List.length_set]

theorem notTargetMask_two_ok {m : List (List ℚ)} {target : List ℚ} {nt : List Bool}
    (h : notTargetMask (NPArr.two m) target = Except.ok nt) :
    nt = m.map (fun r => !decide (r = target)) := by
  rw [notTargetMask, rowsEqTarget] at h
  by_cases hc : (m.all fun r => r.length == target.length) = true
  · rw [if_pos hc] at h
    have h2 : Except.ok ((m.map (fun r => decide (r = target))).map (fun b => !b)) =
        Except.ok nt := h
    cases h2
    rw [List.map_map]
    rfl
  · rw [if_neg hc] at h
    have h2 : (Except.error PyErr.broadcastError : Except PyErr (List Bool)) =
        Except.ok nt := h
    cases h2

theorem notTargetMask_two_length {m : List (List ℚ)} {target : List ℚ} {nt : List Bool}
    (h : notTargetMask (NPArr.two m) target = Except.ok nt) :
    nt.length = m.length := by
  rw [notTargetMask_two_ok h, List.length_map]

theorem isBackdoorRows_length (n : ℕ) (pidxs : List ℕ) :
    (isBackdoorRows n pidxs).length = n := by
  rw [isBackdoorRows, List.length_map, List.length_range]

theorem isBackdoorRows_getD (n : ℕ) (pidxs : List ℕ) (i : ℕ) (h : i < n) :
    (isBackdoorRows n pidxs).getD i [] = eye2row (pidxs.contains i) := by
  rw [isBackdoorRows,
    List.getD_eq_getElem _ _ (by simpa [List.length_range] using h),
    List.getElem_map, List.getElem_range]

theorem isBackdoorRows_nil (n : ℕ) :
    isBackdoorRows n [] = List.replicate n ([1, 0] : List ℚ) := by
  rw [isBackdoorRows]
  have : ∀ i : ℕ, eye2row (List.contains [] i) = ([1, 0] : List ℚ) := by
    intro i; rfl
  calc (List.range n).map (fun i => eye2row (List.contains [] i))
      = (List.range n).map (fun _ => ([1, 0] : List ℚ)) := by
        exact List.map_congr_left (fun i _ => this i)
    _ = List.replicate (List.range n).length ([1, 0] : List ℚ) := List.map_const' _ _
    _ = List.replicate n ([1, 0] : List ℚ) := by rw [List.length_range]

/-- Inversion of a successful `fitCore` run on a 2-D (one-hot) label
array: the `not_target` mask computation succeeded, its length matched
`len(x)`, and the stored triple comes from overwriting exactly the
rows at the selected indices. -/
theorem fitCore_two_ok {x m : List (List ℚ)} {target : List ℚ} {pp_poison : ℚ}
    {draws : ℕ → ℚ} {poisonFn : List (List ℚ) → List (List ℚ) × List (List ℚ)}
    {fd : FitData}
    (h : fitCore x (NPArr.two m) target pp_poison draws poisonFn = Except.ok fd) :
    ∃ nt, notTargetMask (NPArr.two m) target = Except.ok nt ∧
      nt.length = x.length ∧
      overwriteRows x (trueIdxs (selectMask nt draws pp_poison))
        (poisonFn (maskSelect x (selectMask nt draws pp_poison))).1 =
        Except.ok fd.train_data ∧
      overwriteRows m (trueIdxs (selectMask nt draws pp_poison))
        (poisonFn (maskSelect x (selectMask nt draws pp_poison))).2 =
        Except.ok fd.train_labels ∧
      fd.is_backdoor = isBackdoorRows x.length (trueIdxs (selectMask nt draws pp_poison)) := by
  rw [fitCore] at h
  split at h
  next e heq => cases h
  next nt heq =>
    refine ⟨nt, heq, ?_⟩
    simp only [NPArr.rows] at h
    split at h
    next hlen =>
      refine ⟨hlen, ?_⟩
      split at h
      next td tl htd htl => cases h; exact ⟨htd, htl, rfl⟩
      next e z heq2 => cases h
      next a e heq2 => cases h
    next hlen => cases h

theorem Store.read_alloc_lt (s : Store) (a : List (List ℚ)) (i : ℕ)
    (h : i < s.arrays.length) : (s.alloc a).1.read i = s.read i := by
  simp only [Store.alloc, Store.read]
  exact List.getD_append _ _ _ _ h

theorem Store.alloc_arrays_length (s : Store) (a : List (List ℚ)) :
    (s.alloc a).1.arrays.length = s.arrays.length + 1 := by
  simp [Store.alloc]

theorem Store.read_writeRow_ne (s : Store) {i j : ℕ} (r : ℕ) (row : List ℚ)
    (h : i ≠ j) : (s.writeRow i r row).read j = s.read j := by
  simp only [Store.writeRow, Store.read]
  exact getD_set_ne _ _ _ h

theorem overwriteRowsStore_read_ne (aid : ℕ) (idxs : List ℕ) (ps : List (List ℚ))
    (s s2 : Store) (hok : overwriteRowsStore aid s idxs ps = Except.ok s2)
    (j : ℕ) (h : j ≠ aid) : s2.read j = s.read j := by
  induction idxs generalizing s ps with
  | nil => cases ps <;> · rw [overwriteRowsStore] at hok; cases hok; rfl
  | cons idx rest ih =>
    cases ps with
    | nil => rw [overwriteRowsStore] at hok; cases hok
    | cons p ps2 =>
      rw [overwriteRowsStore] at hok
      rw [ih ps2 (s.writeRow aid idx p) hok]
      exact Store.read_writeRow_ne s idx p (Ne.symm h)

theorem contains_eq_false_of_not_mem {α : Type} [BEq α] [LawfulBEq α]
    {l : List α} {a : α} (h : a ∉ l) : l.contains a = false := by
  cases hc : l.contains a
  · rfl
  · exact absurd (List.elem_iff.mp hc) h

/-! ## The claims -/

/-- C1: for every one-hot label array and every outcome of `fit`'s
random sampling, a sample whose label equals the target label is never
selected for poisoning: the corresponding row of the stored poisoned
data and of the stored poisoned labels equals the caller's original
row, and its backdoor-indicator row is the clean one-hot `[1, 0]`. -/
theorem fit_never_poisons_target_rows
    (x m : List (List ℚ)) (target : List ℚ) (pp_poison : ℚ) (draws : ℕ → ℚ)
    (poisonFn : List (List ℚ) → List (List ℚ) × List (List ℚ)) (fd : FitData)
    (i : ℕ) (hi : i < m.length) (hrow : m.getD i [] = target)
    (hok : fitCore x (NPArr.two m) target pp_poison draws poisonFn = Except.ok fd) :
    fd.train_data.getD i [] = x.getD i [] ∧
    fd.train_labels.getD i [] = m.getD i [] ∧
    fd.is_backdoor.getD i [] = [1, 0] := by
  obtain ⟨nt, hnt, hlen, htd, htl, hib⟩ := fitCore_two_ok hok
  have hml : nt.length = m.length := notTargetMask_two_length hnt
  have hnt_i : nt.getD i false = false := by
    rw [notTargetMask_two_ok hnt,
      List.getD_eq_getElem _ _ (by simpa using hi), List.getElem_map]
    have hm : m[i] = target := by
      rw [← List.getD_eq_getElem m [] hi]; exact hrow
    simp [hm]
  have hmem : i ∉ trueIdxs (selectMask nt draws pp_poison) := by
    intro hm2
    have hs := (mem_trueIdxs.mp hm2).2
    have := selectMask_getD_true nt draws pp_poison i hs
    rw [hnt_i] at this
    cases this
  have hix : i < x.length := by omega
  refine ⟨overwriteRows_getD_not_mem _ _ _ _ htd i hmem [],
          overwriteRows_getD_not_mem _ _ _ _ htl i hmem [], ?_⟩
  rw [hib, isBackdoorRows_getD _ _ i hix, contains_eq_false_of_not_mem hmem]
  rfl

/-- Witness for C1: a two-sample batch whose first row already carries
the target label; with `pp_poison = 1` the second row is poisoned and
the first is untouched. -/
theorem fit_never_poisons_target_rows_witness :
    (FitData.mk [[1], [9]] [[1, 0], [1, 0]] [[1, 0], [0, 1]]).train_data.getD 0 [] =
      [[1], [2]].getD 0 [] ∧
    (FitData.mk [[1], [9]] [[1, 0], [1, 0]] [[1, 0], [0, 1]]).train_labels.getD 0 [] =
      [[1, 0], [0, 1]].getD 0 [] ∧
    (FitData.mk [[1], [9]] [[1, 0], [1, 0]] [[1, 0], [0, 1]]).is_backdoor.getD 0 [] =
      [1, 0] :=
  fit_never_poisons_target_rows [[1], [2]] [[1, 0], [0, 1]] [1, 0] 1 (fun _ => 0)
    (fun t => (t.map (fun _ => ([9] : List ℚ)), t.map (fun _ => ([1, 0] : List ℚ))))
    ⟨[[1], [9]], [[1, 0], [1, 0]], [[1, 0], [0, 1]]⟩ 0 (by decide) (by rfl) (by rfl)

/-- C2: with `pp_poison = 0` (uniform draws being nonnegative), the
poison mask is all-false, and `fit` hands the combined model the
caller's data and labels unchanged together with a backdoor indicator
marking every sample as clean. -/
theorem fit_pp_poison_zero_clean
    (x m : List (List ℚ)) (target : List ℚ) (draws : ℕ → ℚ)
    (poisonFn : List (List ℚ) → List (List ℚ) × List (List ℚ)) (nt : List Bool)
    (hd : ∀ k, 0 ≤ draws k)
    (hnt : notTargetMask (NPArr.two m) target = Except.ok nt)
    (hlen : m.length = x.length) :
    selectMask nt draws 0 = List.replicate nt.length false ∧
    fitCore x (NPArr.two m) target 0 draws poisonFn =
      Except.ok ⟨x, m, List.replicate x.length [1, 0]⟩ := by
  have hmask := selectMask_of_nonpos nt draws 0 hd le_rfl
  have hntl : nt.length = x.length := by
    rw [notTargetMask_two_length hnt, hlen]
  refine ⟨hmask, ?_⟩
  simp only [fitCore, hnt, NPArr.rows]
  rw [if_pos hntl, hmask, trueIdxs_replicate_false]
  simp [overwriteRows, isBackdoorRows_nil]

/-- Witness for C2 at a concrete two-sample batch. -/
theorem fit_pp_poison_zero_clean_witness :
    selectMask [false, true] (fun _ => 0) 0 = List.replicate ([false, true] : List Bool).length false ∧
    fitCore [[1], [2]] (NPArr.two [[1, 0], [0, 1]]) [1, 0] 0 (fun _ => 0)
      (fun t => (t, t)) =
      Except.ok ⟨[[1], [2]], [[1, 0], [0, 1]],
        List.replicate ([[1], [2]] : List (List ℚ)).length [1, 0]⟩ :=
  fit_pp_poison_zero_clean [[1], [2]] [[1, 0], [0, 1]] [1, 0] (fun _ => 0)
    (fun t => (t, t)) [false, true] (fun _ => le_rfl) (by rfl) (by rfl)

/-- C3: `fit` never mutates the caller's arrays.  At the store level,
a successful run leaves the arrays referenced by the caller's `x` and
`y` element-for-element unchanged: all poisoning overwrites target the
fresh copies allocated at lines 201-202. -/
theorem fit_does_not_mutate_caller_arrays
    (s : Store) (xid yid : ℕ) (target : List ℚ) (pp_poison : ℚ) (draws : ℕ → ℚ)
    (poisonFn : List (List ℚ) → List (List ℚ) × List (List ℚ))
    (s4 : Store) (tdid tlid : ℕ)
    (hx : xid < s.arrays.length) (hy : yid < s.arrays.length)
    (hok : fitStore s xid yid target pp_poison draws poisonFn =
      Except.ok (s4, tdid, tlid)) :
    s4.read xid = s.read xid ∧ s4.read yid = s.read yid := by
  rw [fitStore] at hok
  split at hok
  next e heq => cases hok
  next nt heq =>
    split at hok
    next hlen =>
      dsimp only at hok
      split at hok
      next e heq2 => cases hok
      next s3 heq2 =>
        split at hok
        next e heq3 => cases hok
        next s4b heq3 =>
          cases hok
          constructor
          · have e1 := overwriteRowsStore_read_ne _ _ _ _ _ heq3 xid
              (by simp [Store.alloc]; omega)
            have e2 := overwriteRowsStore_read_ne _ _ _ _ _ heq2 xid
              (by simp [Store.alloc]; omega)
            have e3 := Store.read_alloc_lt ((s.alloc (s.read xid)).1) (s.read yid) xid
              (by rw [Store.alloc_arrays_length]; omega)
            have e4 := Store.read_alloc_lt s (s.read xid) xid hx
            exact e1.trans (e2.trans (e3.trans e4))
          · have e1 := overwriteRowsStore_read_ne _ _ _ _ _ heq3 yid
              (by simp [Store.alloc]; omega)
            have e2 := overwriteRowsStore_read_ne _ _ _ _ _ heq2 yid
              (by simp [Store.alloc]; omega)
            have e3 := Store.read_alloc_lt ((s.alloc (s.read xid)).1) (s.read yid) yid
              (by rw [Store.alloc_arrays_length]; omega)
            have e4 := Store.read_alloc_lt s (s.read xid) yid hy
            exact e1.trans (e2.trans (e3.trans e4))
    next hlen => cases hok

/-- Witness for C3: a store holding a two-sample batch and its one-hot
labels; after a `fit` that poisons the second sample, the caller's two
arrays read back unchanged. -/
theorem fit_does_not_mutate_caller_arrays_witness :
    (Store.mk [[[1], [2]], [[1, 0], [0, 1]], [[1], [9]], [[1, 0], [1, 0]]]).read 0 =
      (Store.mk [[[1], [2]], [[1, 0], [0, 1]]]).read 0 ∧
    (Store.mk [[[1], [2]], [[1, 0], [0, 1]], [[1], [9]], [[1, 0], [1, 0]]]).read 1 =
      (Store.mk [[[1], [2]], [[1, 0], [0, 1]]]).read 1 :=
  fit_does_not_mutate_caller_arrays ⟨[[[1], [2]], [[1, 0], [0, 1]]]⟩ 0 1 [1, 0] 1
    (fun _ => 0)
    (fun t => (t.map (fun _ => ([9] : List ℚ)), t.map (fun _ => ([1, 0] : List ℚ))))
    ⟨[[[1], [2]], [[1, 0], [0, 1]], [[1], [9]], [[1, 0], [1, 0]]]⟩ 2 3
    (by decide) (by decide) (by rfl)

/-- C8: `get_training_data` returns exactly the triple stored by the
most recent `fit` call, each of the three arrays with first dimension
`len(x)`; before any `fit` it fails (`AttributeError` on the missing
attributes). -/
theorem get_training_data_returns_last_fit
    (st : EstState) (x m : List (List ℚ)) (target : List ℚ) (pp_poison : ℚ)
    (draws : ℕ → ℚ) (poisonFn : List (List ℚ) → List (List ℚ) × List (List ℚ))
    (trainOk : Bool) (fd : FitData)
    (hok : fitCore x (NPArr.two m) target pp_poison draws poisonFn = Except.ok fd) :
    get_training_data
        (fitStep st x (NPArr.two m) target pp_poison draws poisonFn trainOk).1 =
      Except.ok fd ∧
    fd.train_data.length = x.length ∧
    fd.train_labels.length = x.length ∧
    fd.is_backdoor.length = x.length ∧
    get_training_data initialState = Except.error PyErr.attributeError := by
  obtain ⟨nt, hnt, hlen, htd, htl, hib⟩ := fitCore_two_ok hok
  have hml : nt.length = m.length := notTargetMask_two_length hnt
  refine ⟨?_, overwriteRows_length _ _ _ _ htd, ?_, ?_, rfl⟩
  · rw [fitStep, hok]; rfl
  · rw [overwriteRows_length _ _ _ _ htl]; omega
  · rw [hib, isBackdoorRows_length]

/-- Witness for C8 at a concrete two-sample batch. -/
theorem get_training_data_returns_last_fit_witness :
    get_training_data
        (fitStep ⟨none⟩ [[1], [2]] (NPArr.two [[1, 0], [0, 1]]) [1, 0] 1 (fun _ => 0)
          (fun t => (t.map (fun _ => ([9] : List ℚ)), t.map (fun _ => ([1, 0] : List ℚ))))
          true).1 =
      Except.ok (FitData.mk [[1], [9]] [[1, 0], [1, 0]] [[1, 0], [0, 1]]) ∧
    (FitData.mk [[1], [9]] [[1, 0], [1, 0]] [[1, 0], [0, 1]]).train_data.length =
      ([[1], [2]] : List (List ℚ)).length ∧
    (FitData.mk [[1], [9]] [[1, 0], [1, 0]] [[1, 0], [0, 1]]).train_labels.length =
      ([[1], [2]] : List (List ℚ)).length ∧
    (FitData.mk [[1], [9]] [[1, 0], [1, 0]] [[1, 0], [0, 1]]).is_backdoor.length =
      ([[1], [2]] : List (List ℚ)).length ∧
    get_training_data initialState = Except.error PyErr.attributeError :=
  get_training_data_returns_last_fit ⟨none⟩ [[1], [2]] [[1, 0], [0, 1]] [1, 0] 1
    (fun _ => 0)
    (fun t => (t.map (fun _ => ([9] : List ℚ)), t.map (fun _ => ([1, 0] : List ℚ))))
    true ⟨[[1], [9]], [[1, 0], [1, 0]], [[1, 0], [0, 1]]⟩ (by rfl)

/-- C10: `fit` is not atomic with respect to the stored training-data
state: the triple is assigned (line 217) before the framework training
call (line 220), so when that call fails the state already holds the
new triple in full, and `get_training_data` then returns the new
triple, never the one from the last successful `fit`. -/
theorem fit_overwrites_state_before_training
    (st : EstState) (x : List (List ℚ)) (y : NPArr) (target : List ℚ)
    (pp_poison : ℚ) (draws : ℕ → ℚ)
    (poisonFn : List (List ℚ) → List (List ℚ) × List (List ℚ)) (fd fdOld : FitData)
    (hok : fitCore x y target pp_poison draws poisonFn = Except.ok fd)
    (hst : st.stored = some fdOld) (hne : fdOld ≠ fd) :
    fitStep st x y target pp_poison draws poisonFn false =
      (⟨some fd⟩, Except.error PyErr.frameworkError) ∧
    get_training_data (fitStep st x y target pp_poison draws poisonFn false).1 =
      Except.ok fd ∧
    get_training_data (fitStep st x y target pp_poison draws poisonFn false).1 ≠
      Except.ok fdOld := by
  have h1 : fitStep st x y target pp_poison draws poisonFn false =
      (⟨some fd⟩, Except.error PyErr.frameworkError) := by
    rw [fitStep, hok]; rfl
  refine ⟨h1, by rw [h1]; rfl, ?_⟩
  rw [h1]
  intro hcontra
  have h2 : (Except.ok fd : Except PyErr FitData) = Except.ok fdOld := hcontra
  cases h2
  exact hne rfl

/-- Witness for C10: the stored triple of an earlier `fit` is replaced
even though the training call fails. -/
theorem fit_overwrites_state_before_training_witness :
    fitStep ⟨some (FitData.mk [[5]] [[5]] [[5]])⟩ [[1], [2]]
        (NPArr.two [[1, 0], [0, 1]]) [1, 0] 1 (fun _ => 0)
        (fun t => (t.map (fun _ => ([9] : List ℚ)), t.map (fun _ => ([1, 0] : List ℚ))))
        false =
      (⟨some (FitData.mk [[1], [9]] [[1, 0], [1, 0]] [[1, 0], [0, 1]])⟩,
        Except.error PyErr.frameworkError) ∧
    get_training_data
        (fitStep ⟨some (FitData.mk [[5]] [[5]] [[5]])⟩ [[1], [2]]
          (NPArr.two [[1, 0], [0, 1]]) [1, 0] 1 (fun _ => 0)
          (fun t => (t.map (fun _ => ([9] : List ℚ)), t.map (fun _ => ([1, 0] : List ℚ))))
          false).1 =
      Except.ok (FitData.mk [[1], [9]] [[1, 0], [1, 0]] [[1, 0], [0, 1]]) ∧
    get_training_data
        (fitStep ⟨some (FitData.mk [[5]] [[5]] [[5]])⟩ [[1], [2]]
          (NPArr.two [[1, 0], [0, 1]]) [1, 0] 1 (fun _ => 0)
          (fun t => (t.map (fun _ => ([9] : List ℚ)), t.map (fun _ => ([1, 0] : List ℚ))))
          false).1 ≠
      Except.ok (FitData.mk [[5]] [[5]] [[5]]) :=
  fit_overwrites_state_before_training ⟨some ⟨[[5]], [[5]], [[5]]⟩⟩ [[1], [2]]
    (NPArr.two [[1, 0], [0, 1]]) [1, 0] 1 (fun _ => 0)
    (fun t => (t.map (fun _ => ([9] : List ℚ)), t.map (fun _ => ([1, 0] : List ℚ))))
    ⟨[[1], [9]], [[1, 0], [1, 0]], [[1, 0], [0, 1]]⟩ ⟨[[5]], [[5]], [[5]]⟩
    (by rfl) (by rfl) (by decide)

/-- C4 is false of the code: with `feature_layer = 3` on a base model
whose layer-3 and layer-5 activations differ, the sub-model built at
construction returns the activations of layer 5, not those of the
designated layer 3. -/
theorem featureSubmodel_counterexample :
    (featureSubmodel exampleLayerGraph 3).map (fun f => f [0]) = some [5] ∧
    (featureSubmodelSpec exampleLayerGraph 3).map (fun f => f [0]) = some [3] ∧
    ([5] : List ℚ) ≠ [3] :=
  ⟨rfl, rfl, by decide⟩

/-- C4 amended: the sub-model extracted at construction time maps the
base model's input to the activations of the hard-coded layer index 5,
regardless of the `feature_layer` argument; it matches the documented
behavior only for `feature_layer = 5`. -/
theorem featureSubmodel_hardcoded_layer_five (g : LayerGraph) (fl fl2 : ℕ) :
    featureSubmodel g fl = featureSubmodel g fl2 ∧
    featureSubmodel g fl = featureSubmodelSpec g 5 :=
  ⟨rfl, rfl⟩

/-- C5 is right about the intent but wrong about the code: in verbose
mode, as soon as any discriminator output exceeds the detection
threshold, the diagnostic's logging expression (line 242) indexes the
1-D `np.arange(n)` with the 2-D boolean mask
`backdoor_predictions > detect_threshold` and raises `IndexError`, so
`predict` fails instead of returning the task predictions it returns
with `verbose=False`. -/
theorem predict_verbose_diagnostic_raises :
    predictEmbed id id (fun _ => ([[1, 0]], [[2, 0]])) true 1 [[0]] =
      Except.error PyErr.indexError ∧
    predictEmbed id id (fun _ => ([[1, 0]], [[2, 0]])) false 1 [[0]] =
      Except.ok [[1, 0]] :=
  ⟨rfl, rfl⟩

/-- C6: on the successful construction path (no auxiliary losses on
the base model), the compiled objective pairs the base model's
original loss on the task output with binary cross-entropy on the
`backdoor_detect` output, with loss weights `1.0` for the task output
and `-regularization` for the backdoor output, so the combined
objective equals the task loss minus `regularization` times the
discriminator loss. -/
theorem compiled_objective_spec
    (m : BaseModelCfg) (regularization : ℚ) (vals : LossKey → ℚ)
    (h : m.losses = []) :
    buildLosses m = Except.ok [(LossKey.modelName m.name, m.loss),
      (LossKey.backdoorDetect, LossFn.binaryCrossentropy)] ∧
    buildLossWeights m regularization =
      [(LossKey.modelName m.name, 1), (LossKey.backdoorDetect, -regularization)] ∧
    weightedLossSum (buildLossWeights m regularization) vals =
      vals (LossKey.modelName m.name) - regularization * vals LossKey.backdoorDetect := by
  refine ⟨by rw [buildLosses, if_pos h], rfl, ?_⟩
  simp [weightedLossSum, buildLossWeights]
  ring

/-- Witness for C6 on a concrete base model with the default
regularization constant 10. -/
theorem compiled_objective_spec_witness :
    buildLosses ⟨0, LossFn.meanSquaredError, []⟩ =
      Except.ok [(LossKey.modelName 0, LossFn.meanSquaredError),
        (LossKey.backdoorDetect, LossFn.binaryCrossentropy)] ∧
    buildLossWeights ⟨0, LossFn.meanSquaredError, []⟩ 10 =
      [(LossKey.modelName 0, 1), (LossKey.backdoorDetect, -10)] ∧
    weightedLossSum (buildLossWeights ⟨0, LossFn.meanSquaredError, []⟩ 10)
        (fun _ => 2) =
      (fun _ => (2 : ℚ)) (LossKey.modelName 0) -
        10 * (fun _ => (2 : ℚ)) LossKey.backdoorDetect :=
  compiled_objective_spec ⟨0, LossFn.meanSquaredError, []⟩ 10 (fun _ => 2) rfl

/-- C7: `class_gradient` never returns to the caller — the delegated
base-classifier result is the operand of `raise`, which raises a
`TypeError` for every input — while `loss_gradient` returns the base
classifier's gradient normally. -/
theorem class_gradient_raises_loss_gradient_returns
    (baseClassGradient : List (List ℚ) → Option (List ℤ) → List (List ℚ))
    (baseLossGradient : List (List ℚ) → NPArr → List (List ℚ))
    (x : List (List ℚ)) (label : Option (List ℤ)) (y : NPArr) :
    class_gradient baseClassGradient x label = Except.error PyErr.typeError ∧
    loss_gradient baseLossGradient x y = Except.ok (baseLossGradient x y) :=
  ⟨rfl, rfl⟩

/-- C9 is right about the documented contract but wrong about the
code: for every index-form (1-D) label array, the target-label mask
computation `np.all(y == self.target, axis=1)` reduces along an axis
the comparison result does not have, so `fit` raises instead of
accepting the documented label shape. -/
theorem fit_index_form_labels_raise
    (x : List (List ℚ)) (v : List ℚ) (target : List ℚ) (pp_poison : ℚ)
    (draws : ℕ → ℚ) (poisonFn : List (List ℚ) → List (List ℚ) × List (List ℚ)) :
    fitCore x (NPArr.one v) target pp_poison draws poisonFn =
      Except.error PyErr.axisError :=
  rfl

end AdvEmbed
